import Mathlib

set_option autoImplicit false

namespace HtmlEmbed

/-!
Shallow embedding of the HTML embed editing plugin:
`src/packages/ckeditor5-html-embed/src/htmlembedediting.ts` and
`src/packages/ckeditor5-html-embed/src/codemirror.ts`.

Modelling decisions, all read off the source:
  - The single attribute `value` of a `rawHtml` model element is an
    `Option String` (a DOM/editor attribute may be absent).
  - The JavaScript coercion `getAttribute( ... ) as string || ''` is
    `jsOrEmpty` below: both `undefined` and the empty string are falsy.
  - The translation function `t` is modelled as the identity on strings.
  - The widget button registry `_widgetButtonViewReferences` is a
    JavaScript `Set`, iterated in insertion order; it is modelled as a
    list in iteration order.
-/

/-- JavaScript coercion `x || ''` applied to a possibly-absent string attribute:
`undefined` and the empty string are both falsy and give the empty string; any
other string is returned unchanged. Embeds
`modelElement.getAttribute( 'value' ) as string || ''`
(htmlembedediting.ts lines 131 and 154). -/
def jsOrEmpty : Option String → String
  | none => ""
  | some s => if s = "" then "" else s

/-- A `rawHtml` document-model element. The schema (htmlembedediting.ts lines
74-77) registers it with the single allowed attribute `value`. -/
structure RawHtmlElement where
  value : Option String
  deriving DecidableEq

/-- A `div.raw-html-embed` view element as seen by the upcast converter. The
element class is registered as a raw content matcher (htmlembedediting.ts lines
108-111), so the whole inner markup is available verbatim as the custom property
`$rawContent`; `rawContent` holds that string. -/
structure ViewRawDiv where
  rawContent : String
  deriving DecidableEq

/-- The upcast converter (htmlembedediting.ts lines 113-125): a
`div.raw-html-embed` becomes a `rawHtml` model element whose `value` attribute
is the captured raw content, unchanged. -/
def upcast (viewElement : ViewRawDiv) : RawHtmlElement :=
  { value := some viewElement.rawContent }

/-- The serialized view element produced by the data downcast: a `div` carrying
the class and its literal inner markup (written through `domElement.innerHTML`
on a raw element, so no escaping or re-parsing is applied by the converter). -/
structure DataDiv where
  className : String
  innerHTML : String
  deriving DecidableEq

/-- The data downcast converter (htmlembedediting.ts lines 127-134): a `rawHtml`
model element renders to `div.raw-html-embed` whose inner markup is the `value`
attribute coerced through `|| ''`. -/
def dataDowncast (modelElement : RawHtmlElement) : DataDiv :=
  { className := "raw-html-embed"
    innerHTML := jsOrEmpty modelElement.value }

/-- The state of a CodeMirror `EditorView` as far as this plugin constructs it:
the initial document string and the placeholder extension string
(codemirror.ts lines 86-104). -/
structure EditorViewState where
  doc : String
  placeholderText : String
  deriving DecidableEq

/-- Embeds `init` from codemirror.ts (lines 86-104): constructs an `EditorView`
whose document is exactly the `doc` argument and whose placeholder extension
holds `placeholderString`. The update listener registered there is modelled
separately by `updateListener` below. -/
def init (doc : String) (placeholderString : String) : EditorViewState :=
  { doc := doc, placeholderText := placeholderString }

/-- Instrumented state of the single `rawHtml` model element: the element plus
counters distinguishing how its `value` attribute has been written.
`directWrites` counts calls to `modelElement._setAttribute` (bypassing the host
change-tracking); `transactionalWrites` counts writes through an
`editor.model.change` transaction. -/
structure ModelElementTrack where
  element : RawHtmlElement
  directWrites : Nat
  transactionalWrites : Nat
  deriving DecidableEq

/-- Embeds `setRawHtmlValue` (htmlembedediting.ts lines 145-153): writes the
`value` attribute by calling `modelElement._setAttribute( 'value', content )`
directly. The transactional path through `editor.model.change` is commented out
in the source (lines 149-152), so only the direct-write counter moves. -/
def setRawHtmlValue (s : ModelElementTrack) (content : String) : ModelElementTrack :=
  { element := { value := some content }
    directWrites := s.directWrites + 1
    transactionalWrites := s.transactionalWrites }

/-- Embeds `getRawHtmlValue` (htmlembedediting.ts line 154):
`modelElement.getAttribute( 'value' ) as string || ''`. -/
def getRawHtmlValue (modelElement : RawHtmlElement) : String :=
  jsOrEmpty modelElement.value

/-- The `EditorView.updateListener` registered by `init` (codemirror.ts lines
97-101): reads the document as a string and forwards it to `contentUpdate`,
which at the only call site (htmlembedediting.ts line 207) is
`setRawHtmlValue`. -/
def updateListener (content : String) (s : ModelElementTrack) : ModelElementTrack :=
  setRawHtmlValue s content

/-- Embeds `renderContent` (htmlembedediting.ts lines 188-212): clears the
wrapper, creates the `div.raw-html-embed__source` element and initializes the
CodeMirror editor with the current attribute value and the placeholder text.
The source builds the CodeMirror source editor unconditionally; there is no
branch on the preview configuration (the config read on line 91 is commented
out). -/
def renderContent (modelElement : RawHtmlElement) : EditorViewState :=
  init (getRawHtmlValue modelElement) "Paste raw HTML here..."

/-- The possible contents of the widget content wrapper. The `preview`
constructor exists so that the preview alternative described by the spec can be
stated; no function of this embedding produces it, because the source has no
preview code path. -/
inductive WrapperContent where
  | preview (html : String)
  | sourceEditor (editorView : EditorViewState)
  deriving DecidableEq

/-- Whether a wrapper content is a rendered preview. -/
def WrapperContent.isPreview : WrapperContent → Bool
  | .preview _ => true
  | .sourceEditor _ => false

/-- The `htmlEmbed` configuration surface defined by the plugin constructor
(htmlembedediting.ts lines 46-64): the `showPreviews` boolean. The sanitize
function entry is modelled separately by `defaultSanitizeHtml`. -/
structure HtmlEmbedConfig where
  showPreviews : Bool
  deriving DecidableEq

/-- The default configuration defined in the constructor:
`showPreviews: false`. -/
def defaultConfig : HtmlEmbedConfig :=
  { showPreviews := false }

/-- The widget view produced by the editing downcast: the labeled container
`div.raw-html-embed` (with the `data-html-embed-label` text and, via `toWidget`,
a selection handle), holding the `div.raw-html-embed__content-wrapper` raw
element whose DOM is managed manually (`data-cke-ignore-events` is set and the
wrapper is created with `createRawElement`, so the host view renderer does not
diff its children). -/
structure WidgetView where
  containerClass : String
  label : String
  hasSelectionHandle : Bool
  wrapperClass : String
  wrapperIgnoreEvents : Bool
  content : WrapperContent
  deriving DecidableEq

/-- The editing downcast converter (htmlembedediting.ts lines 136-186). The
editor configuration is in scope in the source but never read (the read on line
91 is commented out), so the configuration argument is ignored; the content
wrapper is always filled by `renderContent`, i.e. with the CodeMirror source
editor. -/
def editingDowncast (_cfg : HtmlEmbedConfig) (modelElement : RawHtmlElement) : WidgetView :=
  { containerClass := "raw-html-embed"
    label := "HTML snippet"
    hasSelectionHandle := true
    wrapperClass := "raw-html-embed__content-wrapper"
    wrapperIgnoreEvents := true
    content := .sourceEditor (renderContent modelElement) }

/-- The `mousedown` capture-phase handler installed on the content wrapper
(htmlembedediting.ts lines 160-168). Model elements are identified by a
numeric id; the selection holds the id of the selected element, if any. If the
widget element is not already selected, the handler selects it through
`model.change( writer => writer.setSelection( modelElement, 'on' ) )`. -/
def mousedownHandler (modelElementId : Nat) (selection : Option Nat) : Option Nat :=
  if selection = some modelElementId then selection
  else some modelElementId

/-- The result object of the sanitize function:
`( rawHtml ) -> ( html, hasChanged )`. -/
structure SanitizeOutput where
  html : String
  hasChanged : Bool
  deriving DecidableEq

/-- The default `sanitizeHtml` defined by the plugin constructor
(htmlembedediting.ts lines 48-63): it logs the
`html-embed-provide-sanitize-function` warning through `logWarning` and returns
the input unchanged with `hasChanged: false`. The second component is the list
of warnings the call emits. -/
def defaultSanitizeHtml (rawHtml : String) : SanitizeOutput × List String :=
  ({ html := rawHtml, hasChanged := false }, ["html-embed-provide-sanitize-function"])

/-- A `ButtonView` as seen by the render sweep: whether its `.element` is
non-null and whether that element is connected to the document
(`.isConnected`). The id distinguishes instances. -/
structure ButtonView where
  id : Nat
  hasElement : Bool
  isConnected : Bool
  deriving DecidableEq

/-- The guard on htmlembedediting.ts line 97:
`buttonView.element && buttonView.element.isConnected`. -/
def buttonConnected (b : ButtonView) : Bool :=
  b.hasElement && b.isConnected

/-- The view `render` event handler (htmlembedediting.ts lines 95-104). The
registry `Set` is given as a list in iteration (insertion) order. The result is
the registry after the handler and the list of buttons destroyed by it, in
destruction order. For each button in turn: if its element is connected the
handler executes `return`, ending the whole sweep with the remaining set
untouched; otherwise the button is destroyed and deleted from the set. -/
def renderSweep : List ButtonView → List ButtonView × List ButtonView
  | [] => ([], [])
  | b :: rest =>
    if buttonConnected b then (b :: rest, [])
    else
      let result := renderSweep rest
      (result.1, b :: result.2)

/-- Observable state of the plugin across a run: the widget button registry,
the log of destroyed buttons, the log of warnings emitted through `logWarning`,
the instrumented model element, and the model selection (id of the selected
element, if any). -/
structure PluginState where
  registry : List ButtonView
  destroyedLog : List ButtonView
  warnings : List String
  model : ModelElementTrack
  selection : Option Nat
  deriving DecidableEq

/-- The plugin state right after construction: `_widgetButtonViewReferences`
is initialized to `new Set()` (htmlembedediting.ts line 31), nothing has been
destroyed and no warning has been logged. -/
def initialState (element : RawHtmlElement) : PluginState :=
  { registry := []
    destroyedLog := []
    warnings := []
    model := { element := element, directWrites := 0, transactionalWrites := 0 }
    selection := none }

/-- The externally triggered operations of the plugin, read off
htmlembedediting.ts: the constructor (`config.define` only sets defaults), the
`init` method (schema registration, command registration, converter setup), the
view `render` event, the three converters, the CodeMirror update listener
firing, and the wrapper `mousedown` handler. No operation contains a call that
adds to `_widgetButtonViewReferences` (in the source the set is only
constructed, iterated and deleted from), and the only `logWarning` call in the
plugin sits inside the default `sanitizeHtml`, which no operation invokes. -/
inductive PluginOp where
  | construct
  | initPlugin
  | renderEvent
  | upcastEvent (viewElement : ViewRawDiv)
  | dataDowncastEvent (modelElement : RawHtmlElement)
  | editingDowncastEvent (cfg : HtmlEmbedConfig) (modelElement : RawHtmlElement)
  | sourceUpdate (content : String)
  | mousedownEvent (modelElementId : Nat)
  deriving DecidableEq

/-- Effect of one plugin operation on the observable state. The converters are
pure (their outputs are `upcast`, `dataDowncast` and `editingDowncast` above)
and leave the state unchanged. -/
def applyOp (s : PluginState) : PluginOp → PluginState
  | .construct => s
  | .initPlugin => s
  | .renderEvent =>
    let result := renderSweep s.registry
    { s with registry := result.1, destroyedLog := s.destroyedLog ++ result.2 }
  | .upcastEvent _ => s
  | .dataDowncastEvent _ => s
  | .editingDowncastEvent _ _ => s
  | .sourceUpdate content => { s with model := updateListener content s.model }
  | .mousedownEvent modelElementId =>
    { s with selection := mousedownHandler modelElementId s.selection }

/-- Run of a sequence of plugin operations. -/
def applyOps (s : PluginState) (ops : List PluginOp) : PluginState :=
  ops.foldl applyOp s

/-! Helper lemmas. -/

/-- The render sweep destroys exactly the maximal prefix of disconnected
buttons and leaves the remaining suffix, starting at the first connected
button, in the registry. -/
theorem renderSweep_eq (l : List ButtonView) :
    renderSweep l =
      (l.dropWhile (fun b => !buttonConnected b),
       l.takeWhile (fun b => !buttonConnected b)) := by
  induction l with
  | nil => rfl
  | cons b rest ih =>
    by_cases h : buttonConnected b
    · simp [renderSweep, h, List.dropWhile_cons, List.takeWhile_cons]
    · simp [renderSweep, h, List.dropWhile_cons, List.takeWhile_cons, ih]

/-- Sweeping the registry left by a sweep destroys nothing further (its head,
if any, is connected). -/
theorem renderSweep_after_dropWhile (l : List ButtonView) :
    (renderSweep (l.dropWhile (fun b => !buttonConnected b))).2 = [] := by
  induction l with
  | nil => rfl
  | cons b rest ih =>
    by_cases h : buttonConnected b
    · simp [List.dropWhile_cons, h, renderSweep]
    · simpa [List.dropWhile_cons, h] using ih

/-- No plugin operation emits a warning: the only `logWarning` call sits in the
default sanitize function, which nothing invokes. -/
theorem applyOp_warnings (s : PluginState) (op : PluginOp) :
    (applyOp s op).warnings = s.warnings := by
  cases op <;> rfl

/-- Warnings are invariant across any run. -/
theorem applyOps_warnings (ops : List PluginOp) (s : PluginState) :
    (applyOps s ops).warnings = s.warnings := by
  induction ops generalizing s with
  | nil => rfl
  | cons op rest ih =>
    calc (applyOps s (op :: rest)).warnings
        = (applyOps (applyOp s op) rest).warnings := rfl
      _ = (applyOp s op).warnings := ih (applyOp s op)
      _ = s.warnings := applyOp_warnings s op

/-- An empty registry stays empty under any run and nothing is ever
destroyed. -/
theorem applyOps_registry_empty (ops : List PluginOp) (s : PluginState)
    (h : s.registry = []) :
    (applyOps s ops).registry = [] ∧
      (applyOps s ops).destroyedLog = s.destroyedLog := by
  induction ops generalizing s with
  | nil => exact ⟨h, rfl⟩
  | cons op rest ih =>
    have hstep : (applyOp s op).registry = [] ∧
        (applyOp s op).destroyedLog = s.destroyedLog := by
      cases op <;> simp [applyOp, h, renderSweep]
    have hrec := ih (applyOp s op) hstep.1
    exact ⟨hrec.1, hrec.2.trans hstep.2⟩

/-! Claim theorems. -/

/-- Claim C1, counterexample. The claim states that after the render handler
runs, every button whose element is no longer attached has been destroyed and
removed from the registry. With a registry iterating a connected button before
a disconnected one, the handler returns at the connected button: the
disconnected button ⟨1, true, false⟩ stays in the registry and nothing is
destroyed. -/
theorem renderSweep_misses_disconnected_button :
    renderSweep [⟨0, true, true⟩, ⟨1, true, false⟩] =
      ([⟨0, true, true⟩, ⟨1, true, false⟩], []) ∧
    buttonConnected ⟨1, true, false⟩ = false := by
  constructor
  · rfl
  · rfl

/-- Claim C1, amended. After the render handler runs, the buttons destroyed
(each exactly once, by being removed from the registry) are exactly the maximal
prefix of the iteration order consisting of buttons whose elements are not
connected; the handler stops at the first connected button, leaving it and all
later buttons, connected or not, in the set untouched. Running the handler
again on the resulting registry destroys nothing further, so no button is ever
destroyed twice. -/
theorem renderSweep_characterization (l : List ButtonView) :
    renderSweep l =
      (l.dropWhile (fun b => !buttonConnected b),
       l.takeWhile (fun b => !buttonConnected b)) ∧
    (renderSweep (renderSweep l).1).2 = [] := by
  refine ⟨renderSweep_eq l, ?_⟩
  rw [renderSweep_eq l]
  exact renderSweep_after_dropWhile l

/-- Claim C2. Upcasting a `div.raw-html-embed` whose captured raw content is
`m` and data-downcasting the resulting `rawHtml` element reproduces a
`div.raw-html-embed` whose inner markup is byte-identical to `m`; no escaping
or re-parsing is applied. -/
theorem upcast_dataDowncast_roundTrip (m : String) :
    dataDowncast (upcast { rawContent := m }) =
      { className := "raw-html-embed", innerHTML := m } := by
  by_cases h : m = "" <;> simp [dataDowncast, upcast, jsOrEmpty, h]

/-- Claim C3, counterexample. Even with `showPreviews := true`, the editing
downcast fills the content wrapper with the source editor, not with a rendered
preview: the preview code path does not exist in this source. -/
theorem editingDowncast_no_preview :
    (editingDowncast { showPreviews := true }
        { value := some ("<b>bold</b>") }).content.isPreview = false := by
  rfl

/-- Claim C3, amended. For every configuration and every `rawHtml` model
element, the editing downcast renders the labeled container with the manually
managed content wrapper whose content is always the embedded source editor,
pre-populated with the element value; the result does not depend on the
`showPreviews` configuration. -/
theorem editingDowncast_always_sourceEditor (cfg : HtmlEmbedConfig)
    (modelElement : RawHtmlElement) :
    (editingDowncast cfg modelElement).label = "HTML snippet" ∧
    (editingDowncast cfg modelElement).wrapperClass = "raw-html-embed__content-wrapper" ∧
    (editingDowncast cfg modelElement).wrapperIgnoreEvents = true ∧
    (editingDowncast cfg modelElement).content =
      .sourceEditor (renderContent modelElement) ∧
    editingDowncast cfg modelElement = editingDowncast defaultConfig modelElement := by
  exact ⟨rfl, rfl, rfl, rfl, rfl⟩

/-- Claim C4, counterexample. After plugin construction, initialization, an
editing downcast with previews enabled and the default (unconfigured) sanitize
function, and repeated renders, the number of logged warnings is 0, not the 1
per initialization that the claim states. -/
theorem no_warning_logged_on_init_and_renders :
    ((applyOps (initialState { value := some ("<b>x</b>") })
        [PluginOp.construct, PluginOp.initPlugin,
         PluginOp.editingDowncastEvent { showPreviews := true } { value := some ("<b>x</b>") },
         PluginOp.renderEvent, PluginOp.renderEvent]).warnings.length = 0) ∧
    (0 : Nat) ≠ 1 := by
  exact ⟨rfl, by decide⟩

/-- Claim C4, amended. The default sanitize function logs one warning per
invocation, but no operation of the plugin, initialization included, ever
invokes it (the preview path that would call it does not exist in this source),
so no warning at all is logged, independent of how many times widgets are
rendered or re-rendered. -/
theorem no_plugin_operation_logs_warning (element : RawHtmlElement)
    (ops : List PluginOp) :
    (applyOps (initialState element) ops).warnings = [] := by
  calc (applyOps (initialState element) ops).warnings
      = (initialState element).warnings := applyOps_warnings ops (initialState element)
    _ = [] := rfl

/-- Claim C5. The source editor change listener forwards the emitted content
directly into the model: afterwards the `value` attribute equals the content,
the write went through direct attribute mutation (`_setAttribute`, counted by
`directWrites`), and no `model.change` transaction was used
(`transactionalWrites` is unchanged). -/
theorem updateListener_direct_write (s : ModelElementTrack) (c : String) :
    (updateListener c s).element.value = some c ∧
    (updateListener c s).directWrites = s.directWrites + 1 ∧
    (updateListener c s).transactionalWrites = s.transactionalWrites := by
  exact ⟨rfl, rfl, rfl⟩

/-- Claim C6. Whenever the source-editing text surface is created for a
`rawHtml` element whose `value` attribute is the string `v`, its initial
document is exactly `v`. -/
theorem renderContent_prepopulated (v : String) :
    (renderContent { value := some v }).doc = v := by
  by_cases h : v = "" <;>
    simp [renderContent, init, getRawHtmlValue, jsOrEmpty, h]

/-- Claim C7. After the capture-phase `mousedown` handler runs, the selected
element is the parent `rawHtml` widget element, whatever was selected
before. -/
theorem mousedownHandler_selects_widget (modelElementId : Nat)
    (selection : Option Nat) :
    mousedownHandler modelElementId selection = some modelElementId := by
  unfold mousedownHandler
  split <;> simp_all

/-- Claim C8. The default sanitize function returns its input unchanged with
`hasChanged = false`, and logs the provide-sanitize-function warning on each
invocation. -/
theorem defaultSanitizeHtml_noop (rawHtml : String) :
    (defaultSanitizeHtml rawHtml).1 = { html := rawHtml, hasChanged := false } ∧
    (defaultSanitizeHtml rawHtml).2 = ["html-embed-provide-sanitize-function"] := by
  exact ⟨rfl, rfl⟩

/-- Claim C9. No operation of the plugin ever adds to the widget button
registry: starting from the freshly constructed plugin, after any sequence of
operations the registry is still empty and the render sweep has never
destroyed a button. -/
theorem registry_always_empty (element : RawHtmlElement) (ops : List PluginOp) :
    (applyOps (initialState element) ops).registry = [] ∧
    (applyOps (initialState element) ops).destroyedLog = [] := by
  have h := applyOps_registry_empty ops (initialState element) rfl
  exact ⟨h.1, h.2.trans rfl⟩

/-- Claim C10. When the `value` attribute is absent, the data downcast
serializes an empty inner markup and the source editor is initialized with the
empty document; both are total functions, so no error is raised. -/
theorem absent_value_treated_as_empty :
    (dataDowncast { value := none }).innerHTML = "" ∧
    (renderContent { value := none }).doc = "" := by
  exact ⟨rfl, rfl⟩

end HtmlEmbed
